import Mathlib

/-!
Shallow embedding of the batch ingestion pipeline of the glpi-mcp-server
repository (src/glpi_mcp_server): the path guard and path translator
(tools/utils.py), the directory scanner (tools/folder_tools.py), the
contract-creation adapter (tools/contract_tools.py), the batch pipeline
(tools/batch_tools.py), the date normalizer and batch summarizer
(processors/contract_processor.py) and the LLM strategy timeouts
(llm/strategies.py).

Python strings are modelled as Lean `String`/`List Char`; Python `None`
as `Option`; raised exceptions as `Except` with an explicit exception
class (only `Exception` subclasses are modelled — the handlers in the
source catch at most `Exception`).  Filesystem and HTTP collaborators
are oracles: structures of functions supplied to the embedded code, so
every theorem quantifies over all collaborator behaviours.
-/

/-! ## Python-style string primitives -/

/-- Whitespace characters stripped by Python `str.strip()` (ASCII subset). -/
def pyIsSpace (c : Char) : Bool :=
  c = ' ' || c = '\t' || c = '\n' || c = '\r' || c = '\x0b' || c = '\x0c'

/-- Python `str.strip()` on a character list. -/
def pyStripList (cs : List Char) : List Char :=
  ((cs.dropWhile pyIsSpace).reverse.dropWhile pyIsSpace).reverse

/-- Python `str.strip()`. -/
def pyStrip (s : String) : String := ⟨pyStripList s.toList⟩

/-- Python `str.lstrip(chars)`: drop leading characters belonging to `chars`. -/
def pyLStrip (s : String) (chars : List Char) : String :=
  ⟨s.toList.dropWhile (fun c => chars.contains c)⟩

/-- Python `str.lower()` (ASCII). -/
def pyLower (s : String) : String := ⟨s.toList.map Char.toLower⟩

/-- Sublist (substring) test on character lists, mirroring Python `in`. -/
def subList : List Char → List Char → Bool
  | _, [] => false
  | needle, c :: rest => needle.isPrefixOf (c :: rest) || subList needle rest

/-- Python `needle in haystack` for strings; `""` is in every string. -/
def pyContains (haystack needle : String) : Bool :=
  needle == "" || subList needle.toList haystack.toList

/-- Python `str.startswith(pre)`. -/
def pyStartswith (s pre : String) : Bool := pre.toList.isPrefixOf s.toList

/-- Drop the first `n` characters (Python `s[n:]`). -/
def strDrop (s : String) (n : Nat) : String := ⟨s.toList.drop n⟩

/-- Python `s.replace(pre, repl, 1)` under the guarantee `s.startswith(pre)`:
the first occurrence of `pre` is then the leading one. -/
def replacePrefixOnce (s pre repl : String) : String :=
  repl ++ strDrop s pre.toList.length

/-- Python truthiness of an optional string (`None` and `""` are falsy). -/
def pyTruthy : Option String → Bool
  | none => false
  | some s => !(s == "")

/-- Python `a or b` for an optional string `a` with a string fallback. -/
def pyOr (a : Option String) (b : String) : String :=
  match a with
  | some s => if s = "" then b else s
  | none => b

/-- Python `f"{x}"` on a value that may be `None`. -/
def pyFmt : Option String → String
  | none => "None"
  | some s => s

/-- Split a character list on `/` (the semantics of `str.split("/")`,
keeping empty pieces). -/
def splitSlash (acc : List Char) : List Char → List (List Char)
  | [] => [acc.reverse]
  | c :: rest =>
    if c = '/' then acc.reverse :: splitSlash [] rest
    else splitSlash (c :: acc) rest

/-- Components of a path string: split on `/`, dropping empty and `.`
segments (as `pathlib` does when parsing). -/
def pathParts (s : String) : List String :=
  ((splitSlash [] s.toList).map (fun l => (⟨l⟩ : String))).filter
    (fun c => c ≠ "" && c ≠ ".")

/-- `PurePath.name`: the final path component (`""` when there is none). -/
def pyName (s : String) : String := (pathParts s).getLast?.getD ""

/-- `PurePath.suffix` on a final component `n`: the part from the last dot,
empty when there is no dot, the dot is the first character, or the dot is
the last character. -/
def pySuffixList (n : List Char) : List Char :=
  let after := (n.reverse.takeWhile (fun c => c ≠ '.')).reverse
  if after.length = n.length then []
  else if n.length - after.length - 1 = 0 then []
  else if after.isEmpty then []
  else '.' :: after

/-- `Path(p).suffix` as a string. -/
def pySuffix (p : String) : String := ⟨pySuffixList (pyName p).toList⟩

/-- `Path(p).suffix.lower().lstrip(".")` — the extension checked by the code. -/
def extOf (p : String) : String := pyLStrip (pyLower (pySuffix p)) ['.']

/-! ## Exceptions -/

/-- Classes of the Python exceptions the embedded code distinguishes.
`llmCancelled` is `LLMCancelledError` (a `RuntimeError` subclass declared in
llm/strategies.py); `otherError` covers the remaining `Exception` subclasses
(`NameError`, `TypeError`, pydantic validation errors, httpx errors, …). -/
inductive ExnCls where
  | valueError
  | runtimeError
  | osError
  | llmCancelled
  | otherError
  deriving DecidableEq, Repr

/-- A raised Python exception: its class and its `str(e)` message. -/
structure PyExn where
  cls : ExnCls
  msg : String
  deriving DecidableEq, Repr

/-- Caught by `except (ValueError, RuntimeError)` in `is_path_allowed`
(`LLMCancelledError` subclasses `RuntimeError`). -/
def PyExn.catchableVR (e : PyExn) : Bool :=
  e.cls = ExnCls.valueError || e.cls = ExnCls.runtimeError || e.cls = ExnCls.llmCancelled

/-- The re-raise test of `is_path_allowed`:
`isinstance(e, ValueError) and "Security error" in str(e)`. -/
def PyExn.isSecurity (e : PyExn) : Bool :=
  e.cls = ExnCls.valueError && pyContains e.msg "Security error"

/-! ## PathGuard: `is_path_allowed` (tools/utils.py) -/

/-- Filesystem oracle for `is_path_allowed`.  `Path.exists` swallows
`OSError`/`ValueError` internally, so it is total; `Path.is_symlink` and
`Path.resolve` may raise. -/
structure FileSys where
  pexists : String → Bool
  isSymlink : String → Except PyExn Bool
  resolve : String → Except PyExn String

/-- `target_path.is_relative_to(root)` for resolved absolute paths:
the components of `root` are a prefix of the components of `target`. -/
def isRelativeToB (target root : String) : Bool :=
  (pathParts root).isPrefixOf (pathParts target)

/-- `is_path_allowed(path_str)` from tools/utils.py: `.ok b` models a
returned boolean, `.error e` a raised exception.  `roots` is
`settings.allowed_roots_list` rendered as strings. -/
def is_path_allowed (roots : List String) (fs : FileSys) (path_str : String) :
    Except PyExn Bool :=
  if pyContains path_str ".." then
    .error ⟨ExnCls.valueError,
      "Security error: Path traversal attempt detected in \x27" ++ path_str ++ "\x27"⟩
  else if roots.isEmpty then
    .error ⟨ExnCls.valueError, "Security error: No allowed roots configured on server"⟩
  else
    let body : Except PyExn Bool := do
      if fs.pexists path_str then
        let sy ← fs.isSymlink path_str
        if sy then
          throw ⟨ExnCls.valueError,
            "Security error: Path \x27" ++ path_str ++
              "\x27 is a symbolic link, which is not allowed"⟩
      let target ← fs.resolve path_str
      if roots.any (fun r => isRelativeToB target r) then
        pure true
      else
        throw ⟨ExnCls.valueError,
          "Security error: Path \x27" ++ path_str ++
            "\x27 is outside of all allowed root directories"⟩
    match body with
    | .ok b => .ok b
    | .error e =>
        if e.catchableVR then
          if e.isSecurity then .error e else .ok false
        else .error e

/-! ## Date normalization (processors/contract_processor.py) -/

/-- Left-pad a digit group to two characters (`str.zfill(2)` on groups of
length one or two). -/
def zfill2 (cs : List Char) : List Char :=
  List.replicate (2 - cs.length) '0' ++ cs

/-- One regex digit group `\\d{1,n}` (greedy, no backtracking possible into
a following non-digit separator): the leading digit span, accepted when its
length is between 1 and `n`; returns the group and the rest. -/
def takeGroup (n : Nat) (cs : List Char) : Option (List Char × List Char) :=
  let g := cs.takeWhile Char.isDigit
  if 1 ≤ g.length && g.length ≤ n then some (g, cs.dropWhile Char.isDigit)
  else none

/-- One separator: a dash or a slash. -/
def takeSep : List Char → Option (List Char)
  | c :: rest => if c = '-' || c = '/' then some rest else none
  | [] => none

/-- The `dmy_pattern` regex of `_normalize_date`: one or two digits, a dash
or slash separator, one or two digits, a separator, exactly four digits,
anchored at both ends.  Returns the `(day, month, year)` groups on a match. -/
def parseDMY (cs : List Char) : Option (List Char × List Char × List Char) := do
  let (d, r1) ← takeGroup 2 cs
  let r2 ← takeSep r1
  let (m, r3) ← takeGroup 2 r2
  let r4 ← takeSep r3
  let y := r4.takeWhile Char.isDigit
  if y.length = 4 && (r4.dropWhile Char.isDigit).isEmpty then pure (d, m, y)
  else none

/-- `ContractProcessor._normalize_date`: `None`/`""` map to `None`; the
input is stripped; `DD-MM-YYYY` and `DD/MM/YYYY` are rewritten to
`YYYY-MM-DD`; anything else passes through stripped. -/
def normalize_date : Option String → Option String
  | none => none
  | some s =>
    if s = "" then none
    else
      let t := pyStripList s.toList
      match parseDMY t with
      | some (d, m, y) => some ⟨y ++ '-' :: zfill2 m ++ '-' :: zfill2 d⟩
      | none => some ⟨t⟩

/-- Inputs on which `_normalize_date` is idempotent: everything except a
nonempty all-whitespace string (which strips to `""`, while `""` itself
maps to `None`). -/
def normDateOkInput : Option String → Bool
  | none => true
  | some s => s == "" || !(pyStripList s.toList).isEmpty

/-! ## Configuration (config/settings.py, derived properties)

`Cfg` holds the values of the derived settings properties that the embedded
code reads: `allowed_roots_list` (rendered as strings), `host_allowed_roots_list`,
`str(folder_success_path)` / `str(folder_errores_path)` (absent when the
corresponding property is `None`), `host_folder_success` / `host_folder_errores`
(already including their own fallback to the internal values), the raw
`glpi_folder_success` / `glpi_folder_errores` strings tested for truthiness by
the batch pipeline, `allowed_extensions_list`, `timeout_llm` and the provider. -/

/-- The `llm_provider` literal. -/
inductive Provider where
  | openai
  | anthropic
  | ollama
  deriving DecidableEq, Repr

structure Cfg where
  allowedRootsList : List String
  hostAllowedRoots : List String
  folderSuccessPath : Option String := none
  folderErroresPath : Option String := none
  hostFolderSuccess : Option String := none
  hostFolderErrores : Option String := none
  glpiFolderSuccess : Option String := none
  glpiFolderErrores : Option String := none
  allowedExtensions : List String := ["pdf", "txt", "doc", "docx"]
  timeoutLlm : ℚ := 300
  llmProvider : Provider := Provider.openai

/-! ## PathTranslator: `to_host_path` / `to_internal_path` (tools/utils.py) -/

/-- The guard `if folder and p.startswith(folder)` used by both translators. -/
def matchFolder (p : String) (folder : Option String) : Bool :=
  match folder with
  | some f => !(f == "") && pyStartswith p f
  | none => false

/-- The ordered walk over `zip(roots_a, roots_b)`: replace the first
matching prefix, otherwise return the path unchanged. -/
def walkRoots : List (String × String) → String → String
  | [], p => p
  | (a, b) :: rest, p =>
    if pyStartswith p a then replacePrefixOnce p a b else walkRoots rest p

/-- `to_host_path(internal_path)`: resolve, then check the success folder,
the errors folder, and finally the internal/host root pairs in order;
identity on the resolved path when nothing matches.  `resolve` is the
`Path.resolve` oracle. -/
def to_host_path (cfg : Cfg) (resolve : String → String) (internal_path : String) :
    String :=
  let p := resolve internal_path
  if matchFolder p cfg.folderSuccessPath then
    replacePrefixOnce p (cfg.folderSuccessPath.getD "")
      (pyOr cfg.hostFolderSuccess (cfg.folderSuccessPath.getD ""))
  else if matchFolder p cfg.folderErroresPath then
    replacePrefixOnce p (cfg.folderErroresPath.getD "")
      (pyOr cfg.hostFolderErrores (cfg.folderErroresPath.getD ""))
  else
    walkRoots (cfg.allowedRootsList.zip cfg.hostAllowedRoots) p

/-- `to_internal_path(host_path)`: no resolution; check the host success
folder, the host errors folder, then the host/internal root pairs in order;
identity when nothing matches.  The folder replacement falls back to the
host value itself when the internal folder property is `None`. -/
def to_internal_path (cfg : Cfg) (host_path : String) : String :=
  let h := host_path
  if matchFolder h cfg.hostFolderSuccess then
    replacePrefixOnce h (cfg.hostFolderSuccess.getD "")
      (match cfg.folderSuccessPath with
       | some s => s
       | none => cfg.hostFolderSuccess.getD "")
  else if matchFolder h cfg.hostFolderErrores then
    replacePrefixOnce h (cfg.hostFolderErrores.getD "")
      (match cfg.folderErroresPath with
       | some s => s
       | none => cfg.hostFolderErrores.getD "")
  else
    walkRoots (cfg.hostAllowedRoots.zip cfg.allowedRootsList) h

/-! ## Error codes (tools/error_codes.py) -/

/-- `ERROR_CODES.get(code, "Unknown error")`. -/
def errorDescription (code : Nat) : String :=
  if code = 100 then "Malformed or unreadable file"
  else if code = 101 then "File with possible prompt injection"
  else if code = 102 then "Extension not allowed"
  else if code = 103 then "Read path not allowed"
  else if code = 104 then "Path doesn\x27t exist"
  else "Unknown error"

/-! ## Directory scanner: `read_path_allowed` (tools/folder_tools.py) -/

/-- The return dictionary of `read_path_allowed`: a `files` list plus the
optional `error` / `error_code` / `error_description` / `success` keys. -/
structure ReadRet where
  files : List String := []
  error : Option String := none
  errorCode : Option Nat := none
  errorDesc : Option String := none
  success : Option Bool := none
  deriving DecidableEq, Repr

/-- Build the error return `{"files": [], "error": msg, **get_error_response(code)}`. -/
def readErr (msg : String) (code : Nat) : ReadRet :=
  { files := [], error := some msg, errorCode := some code,
    errorDesc := some (errorDescription code) }

/-- The outer `except Exception` of `read_path_allowed` (lines 170-182):
classify the message and return a structured error. -/
def readOuterCatch (e : PyExn) : ReadRet :=
  let l := pyLower e.msg
  let code := if pyContains l "denied" || pyContains l "not allowed" then 103
    else if pyContains l "not found" then 104
    else 100
  readErr e.msg code

/-- Filesystem oracle for the scanner.  `isDir` models `Path.is_dir` (may
raise, e.g. `PermissionError`), `iter` models `Path.iterdir` returning the
child paths, `childIsFile` models `child.is_file()`. -/
structure ScanFS where
  pexists : String → Bool
  isDir : String → Except PyExn Bool
  iter : String → Except PyExn (List String)
  childIsFile : String → Except PyExn Bool

/-- The inner loop over `p.iterdir()`: keep regular files whose extension is
allowed, translated to host view; a `PermissionError`/`OSError` on one child
skips that child; any other exception aborts the remaining children of this
root (it is caught by the per-root `except Exception`, which returns an
error when an explicit path was given and otherwise continues). -/
def collectChildren (cfg : Cfg) (resolve : String → String) (scan : ScanFS)
    (hasPath : Bool) (p : String) : List String → List String × Option ReadRet
  | [] => ([], none)
  | c :: rest =>
    match scan.childIsFile c with
    | .ok true =>
      let tail := collectChildren cfg resolve scan hasPath p rest
      if cfg.allowedExtensions.contains (extOf c) then
        ((to_host_path cfg resolve c) :: tail.1, tail.2)
      else tail
    | .ok false => collectChildren cfg resolve scan hasPath p rest
    | .error e =>
      if e.cls = ExnCls.osError then
        collectChildren cfg resolve scan hasPath p rest
      else if hasPath then
        ([], some (readErr ("Unexpected error scanning path " ++ p ++ ": " ++ e.msg) 100))
      else ([], none)

/-- Scan a single root `p` (the body of the `for p in paths_to_scan` loop):
`.ok files` continues the outer loop with the files found, `.error ret`
returns `ret` from `read_path_allowed` immediately. -/
def scanOneRoot (cfg : Cfg) (resolve : String → String) (scan : ScanFS)
    (hasPath : Bool) (p : String) : Except ReadRet (List String) :=
  match scan.isDir p with
  | .error e =>
    if e.cls = ExnCls.osError then
      if hasPath then .error (readErr ("Permission denied accessing root path: " ++ p) 103)
      else .ok []
    else if hasPath then
      .error (readErr ("Unexpected error scanning path " ++ p ++ ": " ++ e.msg) 100)
    else .ok []
  | .ok false => .ok []
  | .ok true =>
    match scan.iter p with
    | .error e =>
      if e.cls = ExnCls.osError then
        if hasPath then .error (readErr ("Permission denied listing items in: " ++ p) 103)
        else .ok []
      else if hasPath then
        .error (readErr ("Unexpected error scanning path " ++ p ++ ": " ++ e.msg) 100)
      else .ok []
    | .ok children =>
      match collectChildren cfg resolve scan hasPath p children with
      | (fs, none) => .ok fs
      | (_, some ret) => .error ret

/-- The outer loop over all configured roots (no explicit path): failures
are skipped and files accumulate in order. -/
def scanRoots (cfg : Cfg) (resolve : String → String) (scan : ScanFS) :
    List String → List String
  | [] => []
  | r :: rest =>
    match scanOneRoot cfg resolve scan false r with
    | .ok fs => fs ++ scanRoots cfg resolve scan rest
    | .error _ => scanRoots cfg resolve scan rest

/-- `read_path_allowed(path)` from tools/folder_tools.py.  A given path is
first translated to the internal view (skipped for the falsy `""`); it must
pass `is_path_allowed` (a raised security error is caught by the outer
handler and classified), exist, and be a directory.  Without a path all
configured roots are scanned and failures are skipped.  The function is
total: every exception inside is caught and turned into a return value. -/
def read_path_allowed (cfg : Cfg) (resolve : String → String) (fsG : FileSys)
    (scan : ScanFS) (pathRaw : Option String) : ReadRet :=
  let pathOpt : Option String :=
    match pathRaw with
    | some s => if s = "" then none else some (to_internal_path cfg s)
    | none => none
  match pathOpt with
  | some path =>
    match is_path_allowed cfg.allowedRootsList fsG path with
    | .error e => readOuterCatch e
    | .ok false =>
      readErr ("Access to path \x27" ++ path ++ "\x27 is denied. Check allowed roots.") 103
    | .ok true =>
      if !scan.pexists path then readErr ("Path not found: " ++ path) 104
      else
        match scan.isDir path with
        | .error e => readOuterCatch e
        | .ok false => readErr ("Path is not a directory: " ++ path) 100
        | .ok true =>
          match scanOneRoot cfg resolve scan true path with
          | .error ret => ret
          | .ok fs => { files := fs, success := some true }
  | none =>
    { files := scanRoots cfg resolve scan cfg.allowedRootsList, success := some true }

/-! ## Record creation: `create_glpi_contract` (tools/contract_tools.py) -/

/-- `manager.create(data).model_dump()`: the created record has an id and
a name. -/
structure CreateResp where
  id : Nat
  name : String
  deriving DecidableEq, Repr

/-- `doc_manager.attach_to_item(...)` result. -/
structure AttachResp where
  id : Nat
  name : String
  deriving DecidableEq, Repr

/-- Collaborator oracle for one `create_glpi_contract` call: the result of
`ContractData` validation plus `manager.create` (any exception there
propagates), and the result of the document attachment. -/
structure GlpiEnv where
  managerCreate : Except PyExn CreateResp
  attach : String → Except PyExn AttachResp

/-- The response dictionary of `create_glpi_contract`; the document keys are
absent (`none`) unless the attachment branch runs. -/
structure ContractResponse where
  id : Nat
  name : String
  documentAttached : Option Bool := none
  documentError : Option String := none
  documentId : Option Nat := none
  documentName : Option String := none
  warning : Option String := none
  deriving DecidableEq, Repr

/-- `create_glpi_contract(..., file_path)`.  Faithful to the source,
including its indentation slip: the `try` block around
`doc_manager.attach_to_item` runs in *all* `file_path` branches, so in the
access-denied and extension-not-allowed branches `doc_manager` is unbound
and the block raises `NameError`, which the `except Exception` turns into a
fresh `document_error`.  A security error raised by `is_path_allowed`
propagates out of the function. -/
def create_glpi_contract (roots : List String) (fsG : FileSys)
    (exts : List String) (env : GlpiEnv) (file_path : Option String) :
    Except PyExn ContractResponse :=
  match env.managerCreate with
  | .error e => .error e
  | .ok result =>
    let response : ContractResponse := { id := result.id, name := result.name }
    match file_path with
    | some fp =>
      if fp = "" then .ok response
      else
        match is_path_allowed roots fsG fp with
        | .error e => .error e
        | .ok allowed =>
          let branch : ContractResponse × Bool :=
            if !allowed then
              ({ response with
                  documentAttached := some false,
                  documentError := some ("Access to path \x27" ++ fp ++
                    "\x27 is denied. Check allowed roots."),
                  warning := some ("Contract created (ID: " ++ toString result.id ++
                    "), but document attachment failed: Access denied.") }, false)
            else if !(exts.contains (extOf fp)) then
              ({ response with
                  documentAttached := some false,
                  documentError := some ("File extension \x27" ++ extOf fp ++
                    "\x27 is not allowed."),
                  warning := some ("Contract created (ID: " ++ toString result.id ++
                    "), but document attachment failed: Extension \x27" ++ extOf fp ++
                    "\x27 not allowed.") }, false)
            else (response, true)
          match (if branch.2 then env.attach fp
                 else .error ⟨ExnCls.otherError, "name \x27doc_manager\x27 is not defined"⟩ :
                 Except PyExn AttachResp) with
          | .ok d =>
            .ok { branch.1 with
                    documentAttached := some true,
                    documentId := some d.id,
                    documentName := some d.name }
          | .error e =>
            .ok { branch.1 with
                    documentAttached := some false,
                    documentError := some e.msg,
                    warning := some ("Contract created successfully (ID: " ++
                      toString result.id ++ "), but document attachment failed: " ++
                      e.msg ++ ". You can retry using the " ++
                      "\x27attach_document_to_contract\x27 tool.") }
    | none => .ok response

/-! ## Batch pipeline: `tool_batch_contracts` (tools/batch_tools.py) -/

/-- The view of one `process_contract` result used by the batch loop:
only the `prompt_injection_detected` flag is inspected there (the remaining
dictionary entries flow, filtered, into the `create_glpi_contract`
arguments, which the `GlpiEnv` oracle abstracts over). -/
structure ExtractionRes where
  prompt_injection_detected : Bool
  deriving DecidableEq, Repr

/-- One per-file result entry of the batch pipeline. -/
structure FileOutcome where
  file : String
  processedPath : Option String := none
  status : String := "pending"
  contractId : Option Nat := none
  contractName : Option String := none
  documentAttached : Bool := false
  documentError : Option String := none
  error : Option String := none
  errorCode : Option Nat := none
  errorDesc : Option String := none
  deriving DecidableEq, Repr

/-- The HTTP response of the summary call: the status code and the parsed
message content (`response.json()` plus the provider-specific key
navigation, which may itself raise on a malformed body). -/
structure HttpResp where
  status : Nat
  msgContent : Except PyExn String

/-- Collaborator oracles for one batch run. -/
structure BatchEnv where
  fsG : FileSys
  scan : ScanFS
  resolve : String → String
  extract : String → Except PyExn ExtractionRes
  glpi : String → GlpiEnv
  move : String → String → Except PyExn String
  post : Except PyExn HttpResp

/-- The substring-based error classification of the batch loop
(batch_tools.py lines 124-132). -/
def classifyBatch (msg : String) : Nat :=
  let l := pyLower msg
  if pyContains l "not found" || pyContains l "no exist" || pyContains l "not exist" then 104
  else if pyContains l "not allowed" && pyContains l "extension" then 102
  else if pyContains l "not allowed" || pyContains l "denied" then 103
  else 100

/-- Apply `result_entry.update(get_error_response(code))`. -/
def withErrCode (entry : FileOutcome) (code : Nat) : FileOutcome :=
  { entry with errorCode := some code, errorDesc := some (errorDescription code) }

/-- The per-file processing step (batch_tools.py lines 71-132), before
relocation.  Returns the result entry together with the flag recording
whether `create_glpi_contract` was invoked for this file. -/
def processFileCore (cfg : Cfg) (env : BatchEnv) (file_path : String) :
    FileOutcome × Bool :=
  let base : FileOutcome := { file := pyName file_path }
  match env.extract file_path with
  | .error e =>
    if e.cls = ExnCls.llmCancelled then
      (withErrCode { base with status := "error", error := some e.msg } 105, false)
    else
      (withErrCode { base with status := "error", error := some e.msg }
        (classifyBatch e.msg), false)
  | .ok ex =>
    if ex.prompt_injection_detected then
      (withErrCode
        { base with
          status := "error",
          error := some ("Abortado: Se ha detectado un posible intento de " ++
            "inyección de código (Prompt Injection) en el contenido del archivo.") }
        101, false)
    else
      match create_glpi_contract cfg.allowedRootsList env.fsG
          cfg.allowedExtensions (env.glpi file_path) (some file_path) with
      | .ok cr =>
        let e1 : FileOutcome :=
          { base with
            status := "success",
            contractId := some cr.id,
            contractName := some cr.name,
            documentAttached := cr.documentAttached.getD false }
        (if !e1.documentAttached then { e1 with documentError := cr.documentError }
         else e1, true)
      | .error e =>
        if e.cls = ExnCls.llmCancelled then
          (withErrCode { base with status := "error", error := some e.msg } 105, true)
        else
          (withErrCode { base with status := "error", error := some e.msg }
            (classifyBatch e.msg), true)

/-- The relocation failure handler (batch_tools.py lines 145-148): the
status is overwritten to `"error"` and the relocation message is appended
to the (Python-formatted) previous error text. -/
def moveFail (entry : FileOutcome) (msg : String) : FileOutcome :=
  { entry with
    status := "error",
    error := some (pyLStrip (pyFmt entry.error ++ " | ") [' ', '|'] ++
      "Fallo al mover archivo a carpeta destino: " ++ msg) }

/-- The relocation step (batch_tools.py lines 134-148): move the source file
into the configured success or errors folder and record the translated new
path; any exception flips the entry to an error. -/
def moveBlock (cfg : Cfg) (env : BatchEnv) (file_path : String)
    (entry : FileOutcome) : FileOutcome :=
  let src := to_internal_path cfg file_path
  if entry.status = "success" && pyTruthy cfg.glpiFolderSuccess then
    match env.move src (cfg.glpiFolderSuccess.getD "") with
    | .ok newPath =>
      { entry with processedPath := some (to_host_path cfg env.resolve newPath) }
    | .error e => moveFail entry e.msg
  else if entry.status = "error" && pyTruthy cfg.glpiFolderErrores then
    match env.move src (cfg.glpiFolderErrores.getD "") with
    | .ok newPath =>
      { entry with processedPath := some (to_host_path cfg env.resolve newPath) }
    | .error e => moveFail entry e.msg
  else entry

/-- Full per-file step: processing followed by relocation; the second
component records whether `create_glpi_contract` was invoked. -/
def processFile (cfg : Cfg) (env : BatchEnv) (file_path : String) :
    FileOutcome × Bool :=
  let core := processFileCore cfg env file_path
  (moveBlock cfg env file_path core.1, core.2)

/-! ## Batch summary: `ContractProcessor.generate_batch_summary` -/

/-- The fixed fallback text returned for a non-200 provider response. -/
def summaryFallback : Provider → String
  | Provider.ollama => "Error al generar resumen con Ollama."
  | Provider.anthropic => "Error al generar resumen con Anthropic."
  | Provider.openai => "Error al generar resumen con OpenAI."

/-- The display name of each provider, as it appears in the fallback. -/
def providerFallbackName : Provider → String
  | Provider.ollama => "Ollama"
  | Provider.anthropic => "Anthropic"
  | Provider.openai => "OpenAI"

/-- `generate_batch_summary(results)`: the three provider blocks share one
shape — an `httpx` POST (whose transport exceptions are *not* caught and
propagate), a fixed fallback string for a non-200 status, and otherwise the
stripped message content extracted from the JSON body (whose parse
exceptions also propagate).  Prompt construction from `results` is pure and
is absorbed into the `post` oracle. -/
def generate_batch_summary (provider : Provider) (post : Except PyExn HttpResp)
    (_results : List FileOutcome) : Except PyExn String :=
  match post with
  | .error e => .error e
  | .ok r =>
    if r.status ≠ 200 then .ok (summaryFallback provider)
    else
      match r.msgContent with
      | .error e => .error e
      | .ok c => .ok (pyStrip c)

/-- The aggregate result of a batch run. -/
structure BatchReturn where
  results : List FileOutcome
  summaryText : String
  deriving DecidableEq, Repr

/-- `tool_batch_contracts(path)`: list the files (the embedded
`read_path_allowed` is total, so the surrounding `except` of the source is
unreachable and a structured error is detected by the `error_code` key),
short-circuit on a listing error or an empty list, otherwise process every
file in order and generate the summary (whose exceptions propagate and fail
the whole run). -/
def tool_batch_contracts (cfg : Cfg) (env : BatchEnv) (pathOpt : Option String) :
    Except PyExn BatchReturn :=
  let rr := read_path_allowed cfg env.resolve env.fsG env.scan pathOpt
  if rr.errorCode.isSome then
    .ok { results := [{
            file := pyOr pathOpt "ALL_ROOTS",
            status := "error",
            error := rr.error,
            errorCode := rr.errorCode,
            errorDesc := rr.errorDesc }],
          summaryText := "Error al listar archivos: " ++ pyFmt rr.error }
  else if rr.files.isEmpty then
    .ok { results := [], summaryText := "No se encontraron archivos para procesar." }
  else
    let results := rr.files.map (fun f => (processFile cfg env f).1)
    match generate_batch_summary cfg.llmProvider env.post results with
    | .error e => .error e
    | .ok s => .ok { results := results, summaryText := s }

/-! ## LLM call timeouts (llm/strategies.py and contract_processor.py) -/

/-- `timeout if timeout is not None else settings.timeout_llm` — the
request timeout used by every `LLMStrategy.generate_json` /
`generate_text` implementation in llm/strategies.py. -/
def strategy_request_timeout (timeout : Option ℚ) (timeout_llm : ℚ) : ℚ :=
  timeout.getD timeout_llm

/-- The hardcoded `timeout=` argument of the direct httpx calls in
`ContractProcessor._parse_with_llm`: 600.0 for ollama, 60.0 for anthropic
and openai, taking no per-call parameter and never reading
`settings.timeout_llm`. -/
def parse_with_llm_timeout : Provider → ℚ
  | Provider.ollama => 600
  | Provider.anthropic => 60
  | Provider.openai => 60

/-- The hardcoded `timeout=` argument of the direct httpx calls in
`ContractProcessor.generate_batch_summary`. -/
def batch_summary_timeout : Provider → ℚ
  | Provider.ollama => 600
  | Provider.anthropic => 60
  | Provider.openai => 60

/-! ## Concrete collaborator instances used by witnesses and counterexamples -/

/-- A filesystem with one allowed-root file `/data/c1.pdf`; paths are
already canonical, nothing is a symlink. -/
def fsData : FileSys :=
  { pexists := fun p => p = "/data" || p = "/data/c1.pdf" || p = "/etc/passwd",
    isSymlink := fun _ => .ok false,
    resolve := fun p => .ok p }

/-- A filesystem whose resolution fails with a non-security `ValueError`
(e.g. an embedded null byte). -/
def fsNullByte : FileSys :=
  { pexists := fun _ => false,
    isSymlink := fun _ => .ok false,
    resolve := fun _ => .error ⟨ExnCls.valueError, "embedded null byte"⟩ }

/-- Scanner view of the same tree: `/data` is a directory holding the
single regular file `/data/c1.pdf`. -/
def scanData : ScanFS :=
  { pexists := fun p => p = "/data" || p = "/data/c1.pdf",
    isDir := fun p => .ok (p = "/data"),
    iter := fun p => .ok (if p = "/data" then ["/data/c1.pdf"] else []),
    childIsFile := fun p => .ok (p = "/data/c1.pdf") }

/-- Minimal configuration: one root `/data`, identity host view, no
relocation folders. -/
def cfgData : Cfg :=
  { allowedRootsList := ["/data"], hostAllowedRoots := ["/data"] }

/-- Configuration with a success folder configured (for relocation tests). -/
def cfgDone : Cfg :=
  { cfgData with glpiFolderSuccess := some "/done" }

/-- GLPI collaborator where creation and attachment both succeed. -/
def glpiOk : GlpiEnv :=
  { managerCreate := .ok ⟨7, "Contract A"⟩, attach := fun _ => .ok ⟨9, "Doc A"⟩ }

/-- GLPI collaborator where creation succeeds and attachment raises. -/
def glpiAttachFail : GlpiEnv :=
  { managerCreate := .ok ⟨7, "Contract A"⟩,
    attach := fun _ => .error ⟨ExnCls.otherError, "upload failed"⟩ }

/-- Batch collaborators for a clean run over `/data`. -/
def envOk : BatchEnv :=
  { fsG := fsData, scan := scanData, resolve := id,
    extract := fun _ => .ok ⟨false⟩,
    glpi := fun _ => glpiOk,
    move := fun _ _ => .ok "/done/x.pdf",
    post := .ok { status := 200, msgContent := .ok " Estimado usuario/a: ok " } }

/-- Same run, but the extractor reports a prompt injection. -/
def envInj : BatchEnv :=
  { envOk with extract := fun _ => .ok ⟨true⟩ }

/-- Same run, but the summary HTTP call raises a transport error. -/
def envPostDown : BatchEnv :=
  { envOk with post := .error ⟨ExnCls.osError, "connection refused"⟩ }

/-- Same run, but the relocation move raises. -/
def envMoveFail : BatchEnv :=
  { envOk with move := fun _ _ => .error ⟨ExnCls.osError, "disk full"⟩ }

/-- Same run, but document attachment raises. -/
def envAttachFail : BatchEnv :=
  { envOk with glpi := fun _ => glpiAttachFail }

/-- Translator configuration whose first internal root `/a` is a string
prefix of the second one `/ab` (prefix shadowing). -/
def cfgShadow : Cfg :=
  { allowedRootsList := ["/a", "/ab"], hostAllowedRoots := ["/ha", "/hb"] }

/-- Translator configuration with one root pair mapping `/data` to the
host view `/host/data`. -/
def cfgHost : Cfg :=
  { allowedRootsList := ["/data"], hostAllowedRoots := ["/host/data"] }

/-- The per-file outcome produced by a clean run of `envOk` over `/data`. -/
def outcomeOk : FileOutcome :=
  { file := "c1.pdf", status := "success", contractId := some 7,
    contractName := some "Contract A", documentAttached := true }

/-- The batch result of that clean run. -/
def batchOk : BatchReturn :=
  { results := [outcomeOk], summaryText := "Estimado usuario/a: ok" }

/-- The invariant of claim C10 on one outcome: a terminal status, and an
error message whenever the status is an error. -/
def outcomeInv (r : FileOutcome) : Prop :=
  (r.status = "success" ∨ r.status = "error") ∧
  (r.status = "error" → r.error ≠ none)

/-- A scanner return pairs an error code with an error message. -/
def retWF (r : ReadRet) : Prop :=
  r.errorCode.isSome = true → r.error.isSome = true

/-! ## Helper lemmas: `dropWhile` / `takeWhile` / strip -/

theorem dropWhile_nil_or_head (p : Char → Bool) (l : List Char) :
    l.dropWhile p = [] ∨ ∃ a t, l.dropWhile p = a :: t ∧ p a = false := by
  induction l with
  | nil => exact Or.inl rfl
  | cons a t ih =>
    cases hpa : p a with
    | true => simpa [List.dropWhile_cons, hpa] using ih
    | false => exact Or.inr ⟨a, t, by simp [List.dropWhile_cons, hpa], hpa⟩

theorem dropWhile_eq_self_of_head (p : Char → Bool) (l : List Char)
    (h : ∀ a t, l = a :: t → p a = false) : l.dropWhile p = l := by
  cases l with
  | nil => rfl
  | cons a t => simp [List.dropWhile_cons, h a t rfl]

theorem dropWhile_append_exists (p : Char → Bool) (l : List Char) :
    ∃ pre, l = pre ++ l.dropWhile p := by
  induction l with
  | nil => exact ⟨[], rfl⟩
  | cons a t ih =>
    cases hpa : p a with
    | true =>
      obtain ⟨pre, hpre⟩ := ih
      exact ⟨a :: pre, by simp [List.dropWhile_cons, hpa, ← hpre]⟩
    | false => exact ⟨[], by simp [List.dropWhile_cons, hpa]⟩

theorem pyStripList_last (cs : List Char) (a : Char) (t : List Char)
    (h : (pyStripList cs).reverse = a :: t) : pyIsSpace a = false := by
  unfold pyStripList at h
  rw [List.reverse_reverse] at h
  rcases dropWhile_nil_or_head pyIsSpace (cs.dropWhile pyIsSpace).reverse with h0 | ⟨a0, t0, h0, hp0⟩
  · rw [h0] at h; cases h
  · rw [h0] at h
    injection h with h1 _
    rw [← h1]; exact hp0

theorem pyStripList_head (cs : List Char) (a : Char) (t : List Char)
    (h : pyStripList cs = a :: t) : pyIsSpace a = false := by
  unfold pyStripList at h
  obtain ⟨pre, hpre⟩ :=
    dropWhile_append_exists pyIsSpace (cs.dropWhile pyIsSpace).reverse
  have hrev : cs.dropWhile pyIsSpace =
      (((cs.dropWhile pyIsSpace).reverse.dropWhile pyIsSpace).reverse) ++ pre.reverse := by
    have := congrArg List.reverse hpre
    rwa [List.reverse_reverse, List.reverse_append] at this
  rw [h] at hrev
  rcases dropWhile_nil_or_head pyIsSpace cs with h0 | ⟨a0, t0, h0, hp0⟩
  · rw [h0] at hrev; cases hrev
  · rw [h0] at hrev
    injection hrev with h1 _
    rw [← h1]; exact hp0

theorem pyStripList_idem (cs : List Char) :
    pyStripList (pyStripList cs) = pyStripList cs := by
  have h1 : (pyStripList cs).dropWhile pyIsSpace = pyStripList cs :=
    dropWhile_eq_self_of_head _ _ (fun a t h => pyStripList_head cs a t h)
  show (((pyStripList cs).dropWhile pyIsSpace).reverse.dropWhile pyIsSpace).reverse
      = pyStripList cs
  rw [h1]
  have h2 : (pyStripList cs).reverse.dropWhile pyIsSpace = (pyStripList cs).reverse :=
    dropWhile_eq_self_of_head _ _ (fun a t h => pyStripList_last cs a t h)
  rw [h2, List.reverse_reverse]

theorem pyStripList_eq_self (l : List Char) (h : ∀ c ∈ l, pyIsSpace c = false) :
    pyStripList l = l := by
  unfold pyStripList
  have h1 : l.dropWhile pyIsSpace = l := by
    apply dropWhile_eq_self_of_head
    intro a t hl
    exact h a (by rw [hl]; exact List.mem_cons_self a t)
  rw [h1]
  have h2 : l.reverse.dropWhile pyIsSpace = l.reverse := by
    apply dropWhile_eq_self_of_head
    intro a t hl
    refine h a ?_
    have : a ∈ l.reverse := by rw [hl]; exact List.mem_cons_self a t
    exact List.mem_reverse.mp this
  rw [h2, List.reverse_reverse]

theorem mem_takeWhile_digit (p : Char → Bool) (l : List Char) (c : Char)
    (h : c ∈ l.takeWhile p) : p c = true := by
  induction l with
  | nil => cases h
  | cons a t ih =>
    cases hpa : p a with
    | true =>
      rw [List.takeWhile_cons, hpa] at h
      cases h with
      | head => exact hpa
      | tail _ h => exact ih h
    | false => rw [List.takeWhile_cons, hpa] at h; cases h

theorem takeWhile_append_block (p : Char → Bool) (xs : List Char) (b : Char)
    (r : List Char) (hxs : ∀ c ∈ xs, p c = true) (hb : p b = false) :
    (xs ++ b :: r).takeWhile p = xs ∧ (xs ++ b :: r).dropWhile p = b :: r := by
  induction xs with
  | nil => simp [List.takeWhile_cons, List.dropWhile_cons, hb]
  | cons a t ih =>
    have hpa : p a = true := hxs a (List.mem_cons_self a t)
    have iht := ih (fun c hc => hxs c (List.mem_cons_of_mem a hc))
    simp [List.cons_append, List.takeWhile_cons, List.dropWhile_cons, hpa,
      iht.1, iht.2]

/-! ## Helper lemmas: date normalization -/

theorem digit_not_space (c : Char) (h : c.isDigit = true) : pyIsSpace c = false := by
  by_contra hs
  have hs : pyIsSpace c = true := by
    cases h2 : pyIsSpace c
    · exact absurd h2 hs
    · rfl
  unfold pyIsSpace at hs
  simp only [Bool.or_eq_true, decide_eq_true_eq] at hs
  rcases hs with ((((h1 | h1) | h1) | h1) | h1) | h1 <;>
    (rw [h1] at h; exact absurd h (by decide))

theorem takeGroup_some (n : Nat) (cs g r : List Char)
    (h : takeGroup n cs = some (g, r)) :
    g = cs.takeWhile Char.isDigit ∧ 1 ≤ g.length ∧ g.length ≤ n := by
  unfold takeGroup at h
  simp only [] at h
  split at h
  · rename_i hg
    injection h with h
    injection h with h1 h2
    subst h1
    simp only [Bool.and_eq_true, decide_eq_true_eq] at hg
    exact ⟨rfl, hg.1, hg.2⟩
  · cases h

theorem parseDMY_some (cs d m y : List Char) (h : parseDMY cs = some (d, m, y)) :
    (∀ c ∈ d, c.isDigit = true) ∧ (∀ c ∈ m, c.isDigit = true) ∧
    (∀ c ∈ y, c.isDigit = true) ∧ y.length = 4 := by
  unfold parseDMY at h
  simp only [bind, Option.bind_eq_some] at h
  obtain ⟨⟨d1, r1⟩, hd1, h⟩ := h
  obtain ⟨r2, _, h⟩ := h
  obtain ⟨⟨m1, r3⟩, hm1, h⟩ := h
  obtain ⟨r4, _, h⟩ := h
  obtain ⟨hgd, _, _⟩ := takeGroup_some 2 cs d1 r1 hd1
  obtain ⟨hgm, _, _⟩ := takeGroup_some 2 r2 m1 r3 hm1
  split at h
  · rename_i hy
    simp only [Bool.and_eq_true, decide_eq_true_eq] at hy
    injection h with h
    injection h with h1 h
    injection h with h2 h3
    subst h1; subst h2; subst h3
    refine ⟨?_, ?_, fun c hc => mem_takeWhile_digit _ _ _ hc, hy.1⟩
    · rw [hgd]; exact fun c hc => mem_takeWhile_digit _ _ _ hc
    · rw [hgm]; exact fun c hc => mem_takeWhile_digit _ _ _ hc
  · cases h

theorem zfill2_digits (m : List Char) (hm : ∀ c ∈ m, c.isDigit = true) :
    ∀ c ∈ zfill2 m, c.isDigit = true := by
  intro c hc
  unfold zfill2 at hc
  rcases List.mem_append.mp hc with hc | hc
  · rw [List.eq_of_mem_replicate hc]; decide
  · exact hm c hc

theorem parseDMY_output_none (d m y : List Char)
    (hy : ∀ c ∈ y, c.isDigit = true) (hylen : y.length = 4) :
    parseDMY (y ++ '-' :: (zfill2 m ++ '-' :: zfill2 d)) = none := by
  have hblock := takeWhile_append_block Char.isDigit y '-'
    (zfill2 m ++ '-' :: zfill2 d) hy (by decide)
  unfold parseDMY
  have hg : takeGroup 2 (y ++ '-' :: (zfill2 m ++ '-' :: zfill2 d)) = none := by
    unfold takeGroup
    simp only []
    rw [hblock.1, hylen]
    simp
  rw [hg]
  rfl

theorem output_no_space (d m y : List Char)
    (hd : ∀ c ∈ d, c.isDigit = true) (hm : ∀ c ∈ m, c.isDigit = true)
    (hy : ∀ c ∈ y, c.isDigit = true) :
    ∀ c ∈ y ++ '-' :: (zfill2 m ++ '-' :: zfill2 d), pyIsSpace c = false := by
  intro c hc
  rcases List.mem_append.mp hc with hc | hc
  · exact digit_not_space c (hy c hc)
  · rcases hc with _ | ⟨_, hc⟩
    · decide
    · rcases List.mem_append.mp hc with hc | hc
      · exact digit_not_space c (zfill2_digits m hm c hc)
      · rcases hc with _ | ⟨_, hc⟩
        · decide
        · exact digit_not_space c (zfill2_digits d hd c hc)

theorem string_mk_eq_empty_iff (l : List Char) : (⟨l⟩ : String) = "" ↔ l = [] := by
  constructor
  · intro h
    have := congrArg String.toList h
    simpa using this
  · intro h; rw [h]

theorem normalize_date_idem_aux (x : Option String)
    (hx : normDateOkInput x = true) :
    normalize_date (normalize_date x) = normalize_date x := by
  cases x with
  | none => rfl
  | some s =>
    by_cases hs : s = ""
    · subst hs; rfl
    · have hx2 : (s == "" || !(pyStripList s.toList).isEmpty) = true := hx
      have hne : pyStripList s.toList ≠ [] := by
        intro h0
        rcases Bool.or_eq_true _ _ |>.mp hx2 with h | h
        · exact hs (by simpa using h)
        · rw [h0] at h
          simp at h
      cases hp : parseDMY (pyStripList s.toList) with
      | none =>
        have hs1 : normalize_date (some s) = some ⟨pyStripList s.toList⟩ := by
          simp only [normalize_date, if_neg hs, hp]
        have hne2 : (⟨pyStripList s.toList⟩ : String) ≠ "" :=
          fun h => hne ((string_mk_eq_empty_iff _).mp h)
        have h3 : (⟨pyStripList s.toList⟩ : String).toList = pyStripList s.toList := rfl
        rw [hs1]
        simp only [normalize_date, if_neg hne2, h3, pyStripList_idem, hp]
      | some dmy =>
        obtain ⟨d, m, y⟩ := dmy
        obtain ⟨hd, hm, hy, hylen⟩ := parseDMY_some _ _ _ _ hp
        have hassoc : y ++ '-' :: zfill2 m ++ '-' :: zfill2 d
            = y ++ '-' :: (zfill2 m ++ '-' :: zfill2 d) := by
          simp
        have hs1 : normalize_date (some s)
            = some ⟨y ++ '-' :: zfill2 m ++ '-' :: zfill2 d⟩ := by
          simp only [normalize_date, if_neg hs, hp]
        have hyne : y ++ '-' :: zfill2 m ++ '-' :: zfill2 d ≠ [] := by
          intro h0
          have hl := congrArg List.length h0
          rw [hassoc] at hl
          simp only [List.length_append, List.length_cons, List.length_nil, hylen] at hl
          omega
        have hne2 : (⟨y ++ '-' :: zfill2 m ++ '-' :: zfill2 d⟩ : String) ≠ "" :=
          fun h => hyne ((string_mk_eq_empty_iff _).mp h)
        have h3 : (⟨y ++ '-' :: zfill2 m ++ '-' :: zfill2 d⟩ : String).toList
            = y ++ '-' :: zfill2 m ++ '-' :: zfill2 d := rfl
        have hstrip : pyStripList (y ++ '-' :: zfill2 m ++ '-' :: zfill2 d)
            = y ++ '-' :: zfill2 m ++ '-' :: zfill2 d := by
          rw [hassoc]
          exact pyStripList_eq_self _ (output_no_space d m y hd hm hy)
        have hparse : parseDMY (y ++ '-' :: zfill2 m ++ '-' :: zfill2 d) = none := by
          rw [hassoc]
          exact parseDMY_output_none d m y hy hylen
        rw [hs1]
        simp only [normalize_date, if_neg hne2, h3, hstrip, hparse]

/-! ## Helper lemmas: path translation -/

theorem string_toList_append (s t : String) :
    (s ++ t).toList = s.toList ++ t.toList := by
  cases s; cases t; rfl

theorem string_mk_toList (s : String) : (⟨s.toList⟩ : String) = s := by
  cases s; rfl

theorem replacePrefixOnce_append (a rest b : String) :
    replacePrefixOnce (a ++ rest) a b = b ++ rest := by
  unfold replacePrefixOnce strDrop
  rw [string_toList_append, List.drop_left, string_mk_toList]

theorem pyStartswith_append (a rest : String) :
    pyStartswith (a ++ rest) a = true := by
  unfold pyStartswith
  rw [string_toList_append]
  exact List.isPrefixOf_iff_prefix.mpr (List.prefix_append _ _)

theorem walkRoots_miss (pairs : List (String × String)) (p : String)
    (h : ∀ pr ∈ pairs, pyStartswith p pr.1 = false) :
    walkRoots pairs p = p := by
  induction pairs with
  | nil => rfl
  | cons ab rest ih =>
    obtain ⟨a, b⟩ := ab
    unfold walkRoots
    rw [h (a, b) (List.mem_cons_self _ _)]
    simp only [Bool.false_eq_true, if_false]
    exact ih (fun pr hpr => h pr (List.mem_cons_of_mem _ hpr))

theorem walkRoots_hit (pre post : List (String × String)) (a b p : String)
    (hpre : ∀ pr ∈ pre, pyStartswith p pr.1 = false)
    (hhit : pyStartswith p a = true) :
    walkRoots (pre ++ (a, b) :: post) p = replacePrefixOnce p a b := by
  induction pre with
  | nil =>
    rw [List.nil_append]
    unfold walkRoots
    rw [hhit]
    simp
  | cons xy rest ih =>
    obtain ⟨x, y⟩ := xy
    rw [List.cons_append]
    unfold walkRoots
    rw [hpre (x, y) (List.mem_cons_self _ _)]
    simp only [Bool.false_eq_true, if_false]
    exact ih (fun pr hpr => hpre pr (List.mem_cons_of_mem _ hpr))

/-! ## Helper lemmas: batch pipeline invariants -/

theorem moveFail_inv (entry : FileOutcome) (msg : String) :
    outcomeInv (moveFail entry msg) := by
  unfold moveFail outcomeInv
  exact ⟨Or.inr rfl, fun _ => by simp⟩

theorem moveBlock_inv (cfg : Cfg) (env : BatchEnv) (fp : String)
    (entry : FileOutcome) (h : outcomeInv entry) :
    outcomeInv (moveBlock cfg env fp entry) := by
  unfold moveBlock
  simp only []
  split
  · split
    · exact ⟨h.1, fun hs => h.2 hs⟩
    · exact moveFail_inv _ _
  · split
    · split
      · exact ⟨h.1, fun hs => h.2 hs⟩
      · exact moveFail_inv _ _
    · exact h

theorem processFileCore_inv (cfg : Cfg) (env : BatchEnv) (fp : String) :
    outcomeInv (processFileCore cfg env fp).1 := by
  unfold processFileCore
  simp only []
  split
  · split
    · exact ⟨Or.inr rfl, fun _ => by simp [withErrCode]⟩
    · exact ⟨Or.inr rfl, fun _ => by simp [withErrCode]⟩
  · split
    · exact ⟨Or.inr rfl, fun _ => by simp [withErrCode]⟩
    · split
      · constructor
        · left
          split <;> rfl
        · intro hs
          exfalso
          revert hs
          split <;> simp
      · split
        · exact ⟨Or.inr rfl, fun _ => by simp [withErrCode]⟩
        · exact ⟨Or.inr rfl, fun _ => by simp [withErrCode]⟩

theorem processFile_inv (cfg : Cfg) (env : BatchEnv) (fp : String) :
    outcomeInv (processFile cfg env fp).1 :=
  moveBlock_inv cfg env fp _ (processFileCore_inv cfg env fp)

theorem moveBlock_keeps_error (cfg : Cfg) (env : BatchEnv) (fp : String)
    (entry : FileOutcome) (h : entry.status = "error") :
    (moveBlock cfg env fp entry).status = "error" ∧
    (moveBlock cfg env fp entry).errorCode = entry.errorCode ∧
    (moveBlock cfg env fp entry).errorDesc = entry.errorDesc := by
  unfold moveBlock
  simp only []
  split
  · rename_i hc
    rw [h] at hc
    simp at hc
  · split
    · split
      · exact ⟨h, rfl, rfl⟩
      · exact ⟨rfl, rfl, rfl⟩
    · exact ⟨h, rfl, rfl⟩

/-! ## Helper lemmas: scanner error returns pair code with message -/

theorem readErr_paired (msg : String) (code : Nat) :
    (readErr msg code).error.isSome = true ∧ (readErr msg code).errorCode.isSome = true := by
  exact ⟨rfl, rfl⟩

theorem collectChildren_ret (cfg : Cfg) (resolve : String → String) (scan : ScanFS)
    (hasPath : Bool) (p : String) (children : List String) (ret : ReadRet)
    (h : (collectChildren cfg resolve scan hasPath p children).2 = some ret) :
    ∃ msg code, ret = readErr msg code := by
  induction children with
  | nil => cases h
  | cons c rest ih =>
    unfold collectChildren at h
    split at h
    · split at h
      · exact ih h
      · exact ih h
    · exact ih h
    · split at h
      · exact ih h
      · split at h
        · injection h with h
          exact ⟨_, _, h.symm⟩
        · cases h

theorem scanOneRoot_ret (cfg : Cfg) (resolve : String → String) (scan : ScanFS)
    (hasPath : Bool) (p : String) (ret : ReadRet)
    (h : scanOneRoot cfg resolve scan hasPath p = .error ret) :
    ∃ msg code, ret = readErr msg code := by
  unfold scanOneRoot at h
  split at h
  · split at h
    · split at h
      · injection h with h
        exact ⟨_, _, h.symm⟩
      · cases h
    · split at h
      · injection h with h
        exact ⟨_, _, h.symm⟩
      · cases h
  · cases h
  · split at h
    · split at h
      · split at h
        · injection h with h
          exact ⟨_, _, h.symm⟩
        · cases h
      · split at h
        · injection h with h
          exact ⟨_, _, h.symm⟩
        · cases h
    · split at h
      · cases h
      · rename_i heq
        injection h with h
        obtain ⟨msg, code, hmc⟩ :=
          collectChildren_ret cfg resolve scan hasPath p _ _ (by rw [heq])
        exact ⟨msg, code, by rw [← h, hmc]⟩

theorem retWF_readErr (msg : String) (code : Nat) : retWF (readErr msg code) :=
  fun _ => rfl

theorem retWF_outer (e : PyExn) : retWF (readOuterCatch e) :=
  fun _ => rfl

theorem read_wf (cfg : Cfg) (resolve : String → String) (fsG : FileSys)
    (scan : ScanFS) (pathRaw : Option String) :
    retWF (read_path_allowed cfg resolve fsG scan pathRaw) := by
  unfold read_path_allowed
  simp only []
  split
  · split
    · exact retWF_outer _
    · exact retWF_readErr _ _
    · split
      · exact retWF_readErr _ _
      · split
        · exact retWF_outer _
        · exact retWF_readErr _ _
        · split
          · rename_i ret heq
            obtain ⟨msg, code, hmc⟩ := scanOneRoot_ret _ _ _ _ _ _ heq
            rw [hmc]
            exact retWF_readErr _ _
          · intro hh
            simp at hh
  · intro hh
    simp at hh

/-! ## Claim theorems -/

/-- C1: for every file whose extraction result carries
`prompt_injection_detected = true`, the batch pipeline records that file's
outcome with status `"error"` and error code 101 (`PromptInjectionSuspected`,
description "File with possible prompt injection"), never invokes
`create_glpi_contract` for that file (second component `false`), and the
relocation step preserves the status and code; whenever a batch run returns
and the file was listed, exactly this outcome is in the results list. -/
theorem c1_injection_short_circuit (cfg : Cfg) (env : BatchEnv) (fp : String)
    (ex : ExtractionRes) (hex : env.extract fp = .ok ex)
    (hinj : ex.prompt_injection_detected = true) :
    (processFile cfg env fp).2 = false ∧
    (processFile cfg env fp).1.status = "error" ∧
    (processFile cfg env fp).1.errorCode = some 101 ∧
    (processFile cfg env fp).1.errorDesc = some "File with possible prompt injection" ∧
    (∀ (pathOpt : Option String) (b : BatchReturn),
      tool_batch_contracts cfg env pathOpt = .ok b →
      (read_path_allowed cfg env.resolve env.fsG env.scan pathOpt).errorCode = none →
      fp ∈ (read_path_allowed cfg env.resolve env.fsG env.scan pathOpt).files →
      (processFile cfg env fp).1 ∈ b.results) := by
  have hcore : (processFileCore cfg env fp) =
      (withErrCode {
          file := pyName fp,
          status := "error",
          error := some ("Abortado: Se ha detectado un posible intento de " ++
            "inyección de código (Prompt Injection) en el contenido del archivo.") } 101,
        false) := by
    unfold processFileCore
    rw [hex]
    simp only [hinj]
    exact if_pos trivial
  have hstat : (processFileCore cfg env fp).1.status = "error" := by
    rw [hcore]
    rfl
  have hkeep := moveBlock_keeps_error cfg env fp (processFileCore cfg env fp).1 hstat
  have hmember : ∀ (pathOpt : Option String) (b : BatchReturn),
      tool_batch_contracts cfg env pathOpt = .ok b →
      (read_path_allowed cfg env.resolve env.fsG env.scan pathOpt).errorCode = none →
      fp ∈ (read_path_allowed cfg env.resolve env.fsG env.scan pathOpt).files →
      (processFile cfg env fp).1 ∈ b.results := by
    intro pathOpt b hok hnone hmem
    unfold tool_batch_contracts at hok
    simp only [] at hok
    rw [hnone] at hok
    simp only [Option.isSome_none, Bool.false_eq_true, if_false] at hok
    have hnempty : (read_path_allowed cfg env.resolve env.fsG env.scan pathOpt).files.isEmpty = false := by
      cases hfe : (read_path_allowed cfg env.resolve env.fsG env.scan pathOpt).files with
      | nil => rw [hfe] at hmem; cases hmem
      | cons a t => rfl
    rw [hnempty] at hok
    simp only [Bool.false_eq_true, if_false] at hok
    cases hsum : generate_batch_summary cfg.llmProvider env.post
        ((read_path_allowed cfg env.resolve env.fsG env.scan pathOpt).files.map
          (fun f => (processFile cfg env f).1)) with
    | error e => rw [hsum] at hok; cases hok
    | ok s =>
      rw [hsum] at hok
      injection hok with hok
      rw [← hok]
      exact List.mem_map_of_mem (fun f => (processFile cfg env f).1) hmem
  refine ⟨?_, ?_, ?_, ?_, hmember⟩
  · show (processFileCore cfg env fp).2 = false
    rw [hcore]
  · exact hkeep.1
  · rw [show (processFile cfg env fp).1.errorCode
        = (moveBlock cfg env fp (processFileCore cfg env fp).1).errorCode from rfl,
      hkeep.2.1, hcore]
    rfl
  · rw [show (processFile cfg env fp).1.errorDesc
        = (moveBlock cfg env fp (processFileCore cfg env fp).1).errorDesc from rfl,
      hkeep.2.2, hcore]
    rfl

/-- Witness for C1 at a concrete run: the mock extractor flags an
injection for `/data/c1.pdf`. -/
theorem c1_injection_short_circuit_witness :
    (processFile cfgData envInj "/data/c1.pdf").2 = false ∧
    (processFile cfgData envInj "/data/c1.pdf").1.status = "error" ∧
    (processFile cfgData envInj "/data/c1.pdf").1.errorCode = some 101 ∧
    (processFile cfgData envInj "/data/c1.pdf").1.errorDesc
      = some "File with possible prompt injection" := by
  obtain ⟨h1, h2, h3, h4, _⟩ :=
    c1_injection_short_circuit cfgData envInj "/data/c1.pdf" ⟨true⟩ rfl rfl
  exact ⟨h1, h2, h3, h4⟩

/-- C5: for every processed file, if the post-processing move into the
configured success or errors folder raises, the final outcome status is
`"error"` — even when processing itself succeeded — and the outcome's
error text contains the relocation failure message. -/
theorem c5_relocation_failure_wins (cfg : Cfg) (env : BatchEnv) (fp : String)
    (e : PyExn)
    (h : ((processFileCore cfg env fp).1.status = "success" ∧
            pyTruthy cfg.glpiFolderSuccess = true ∧
            env.move (to_internal_path cfg fp) (cfg.glpiFolderSuccess.getD "")
              = .error e) ∨
         ((processFileCore cfg env fp).1.status = "error" ∧
            pyTruthy cfg.glpiFolderErrores = true ∧
            env.move (to_internal_path cfg fp) (cfg.glpiFolderErrores.getD "")
              = .error e)) :
    (processFile cfg env fp).1.status = "error" ∧
    ∃ pre, (processFile cfg env fp).1.error
      = some (pre ++ ("Fallo al mover archivo a carpeta destino: " ++ e.msg)) := by
  have hgoal : (processFile cfg env fp).1 = moveFail (processFileCore cfg env fp).1 e.msg := by
    show moveBlock cfg env fp (processFileCore cfg env fp).1
        = moveFail (processFileCore cfg env fp).1 e.msg
    unfold moveBlock
    simp only []
    rcases h with ⟨h1, h2, h3⟩ | ⟨h1, h2, h3⟩
    · rw [if_pos (by rw [h1, h2]; rfl), h3]
    · rw [if_neg (by rw [h1]; simp), if_pos (by rw [h1, h2]; rfl), h3]
  rw [hgoal]
  unfold moveFail
  refine ⟨rfl, ?_⟩
  refine ⟨pyLStrip (pyFmt (processFileCore cfg env fp).1.error ++ " | ") [' ', '|'], ?_⟩
  rw [String.append_assoc]

/-- Witness for C5: a successful run whose move into the configured
success folder fails with "disk full". -/
theorem c5_relocation_failure_wins_witness :
    (processFile cfgDone envMoveFail "/data/c1.pdf").1.status = "error" ∧
    ∃ pre, (processFile cfgDone envMoveFail "/data/c1.pdf").1.error
      = some (pre ++ ("Fallo al mover archivo a carpeta destino: " ++ "disk full")) :=
  c5_relocation_failure_wins cfgDone envMoveFail "/data/c1.pdf"
    ⟨ExnCls.osError, "disk full"⟩ (Or.inl ⟨rfl, rfl, rfl⟩)

/-- C6: for every file whose record creation succeeds but whose document
attachment raises, the file's recorded outcome has status `"success"`,
`document_attached = false`, and `document_error` populated with the
attachment failure message (the hypotheses also require a nonempty path,
no injection flag, and that path and extension checks pass, which is how
the attachment call is reached). -/
theorem c6_attachment_failure_nonfatal (cfg : Cfg) (env : BatchEnv)
    (fp : String) (ex : ExtractionRes) (cres : CreateResp) (ea : PyExn)
    (hne : fp ≠ "")
    (hex : env.extract fp = .ok ex)
    (hinj : ex.prompt_injection_detected = false)
    (hcreate : (env.glpi fp).managerCreate = .ok cres)
    (hallowed : is_path_allowed cfg.allowedRootsList env.fsG fp = .ok true)
    (hext : cfg.allowedExtensions.contains (extOf fp) = true)
    (hattach : (env.glpi fp).attach fp = .error ea) :
    (processFileCore cfg env fp).1.status = "success" ∧
    (processFileCore cfg env fp).1.documentAttached = false ∧
    (processFileCore cfg env fp).1.documentError = some ea.msg ∧
    (processFileCore cfg env fp).2 = true := by
  have hcr : create_glpi_contract cfg.allowedRootsList env.fsG
      cfg.allowedExtensions (env.glpi fp) (some fp) =
      .ok { id := cres.id, name := cres.name,
            documentAttached := some false,
            documentError := some ea.msg,
            warning := some ("Contract created successfully (ID: " ++
              toString cres.id ++ "), but document attachment failed: " ++
              ea.msg ++ ". You can retry using the " ++
              "\x27attach_document_to_contract\x27 tool.") } := by
    unfold create_glpi_contract
    rw [hcreate]
    simp only []
    rw [if_neg hne, hallowed]
    simp only [hext, Bool.not_true, Bool.false_eq_true, if_false]
    rw [hattach]
    rw [if_pos trivial]
  unfold processFileCore
  rw [hex]
  simp only [hinj, Bool.false_eq_true, if_false]
  rw [hcr]
  exact ⟨rfl, rfl, rfl, rfl⟩

/-- Witness for C6: creation succeeds with id 7 and the upload raises
"upload failed". -/
theorem c6_attachment_failure_nonfatal_witness :
    (processFileCore cfgData envAttachFail "/data/c1.pdf").1.status = "success" ∧
    (processFileCore cfgData envAttachFail "/data/c1.pdf").1.documentAttached = false ∧
    (processFileCore cfgData envAttachFail "/data/c1.pdf").1.documentError
      = some "upload failed" ∧
    (processFileCore cfgData envAttachFail "/data/c1.pdf").2 = true :=
  c6_attachment_failure_nonfatal cfgData envAttachFail "/data/c1.pdf"
    ⟨false⟩ ⟨7, "Contract A"⟩ ⟨ExnCls.otherError, "upload failed"⟩
    (by decide) rfl rfl rfl rfl rfl rfl

/-- C10: every per-file outcome in the results list of a returned batch run
has status `"success"` or `"error"` — the initial `"pending"` state never
appears — and an `"error"` outcome always carries a non-null error
message. -/
theorem c10_terminal_outcomes (cfg : Cfg) (env : BatchEnv)
    (pathOpt : Option String) (b : BatchReturn)
    (hok : tool_batch_contracts cfg env pathOpt = .ok b)
    (r : FileOutcome) (hr : r ∈ b.results) :
    (r.status = "success" ∨ r.status = "error") ∧
    (r.status = "error" → r.error ≠ none) := by
  unfold tool_batch_contracts at hok
  simp only [] at hok
  by_cases hcode :
      (read_path_allowed cfg env.resolve env.fsG env.scan pathOpt).errorCode.isSome = true
  · rw [if_pos hcode] at hok
    injection hok with hok
    rw [← hok] at hr
    simp only [] at hr
    have hre : r = {
        file := pyOr pathOpt "ALL_ROOTS",
        status := "error",
        error := (read_path_allowed cfg env.resolve env.fsG env.scan pathOpt).error,
        errorCode := (read_path_allowed cfg env.resolve env.fsG env.scan pathOpt).errorCode,
        errorDesc := (read_path_allowed cfg env.resolve env.fsG env.scan pathOpt).errorDesc } := by
      rcases hr with _ | ⟨_, h0⟩
      · rfl
      · cases h0
    have hsome := read_wf cfg env.resolve env.fsG env.scan pathOpt hcode
    constructor
    · right; rw [hre]
    · intro _
      rw [hre]
      simp only []
      intro h0
      rw [h0] at hsome
      cases hsome
  · rw [if_neg hcode] at hok
    by_cases hfe :
        (read_path_allowed cfg env.resolve env.fsG env.scan pathOpt).files.isEmpty = true
    · rw [if_pos hfe] at hok
      injection hok with hok
      rw [← hok] at hr
      cases hr
    · rw [if_neg hfe] at hok
      cases hsum : generate_batch_summary cfg.llmProvider env.post
          ((read_path_allowed cfg env.resolve env.fsG env.scan pathOpt).files.map
            (fun f => (processFile cfg env f).1)) with
      | error e => rw [hsum] at hok; cases hok
      | ok st =>
        rw [hsum] at hok
        injection hok with hok
        rw [← hok] at hr
        simp only [] at hr
        obtain ⟨f, _, hfr⟩ := List.mem_map.mp hr
        rw [← hfr]
        exact processFile_inv cfg env f

/-- Witness for C10: the clean concrete run over `/data` returns one
outcome, which satisfies the invariant. -/
theorem c10_terminal_outcomes_witness :
    (tool_batch_contracts cfgData envOk (some "/data") = .ok batchOk) ∧
    ((outcomeOk.status = "success" ∨ outcomeOk.status = "error") ∧
      (outcomeOk.status = "error" → outcomeOk.error ≠ none)) :=
  ⟨rfl, c10_terminal_outcomes cfgData envOk (some "/data") batchOk rfl outcomeOk
    (List.mem_cons_self _ _)⟩

/-- C2: the containment half of the claim holds (a canonical path under a
configured root returns `true`), but the "outside every root returns
`false` without raising" half is contradicted by the code: at the concrete
failing input `/etc/passwd` with configured root `/data` (the path exists,
is no symlink, resolves to itself and contains no traversal segment),
`is_path_allowed` raises the "outside of all allowed root directories"
security `ValueError` instead of returning `false`, contradicting its own
docstring ("Returns: True if allowed, False otherwise") and the
`if not is_path_allowed(...)` denial branches of its three callers. -/
theorem c2_outside_root_raises :
    is_path_allowed ["/data"] fsData "/data/c1.pdf" = .ok true ∧
    is_path_allowed ["/data"] fsData "/etc/passwd" =
      .error ⟨ExnCls.valueError,
        "Security error: Path \x27/etc/passwd\x27 is outside of all allowed root directories"⟩ :=
  ⟨rfl, rfl⟩

/-- C3: `is_path_allowed` fails with a security error in a fourth case the
claim does not list — a path outside every configured root — shown at the
concrete input `/srv/report.pdf` (no `..`, roots configured, not a
symlink); the claim's swallow half works as stated for a non-security
resolution failure (last conjunct). -/
theorem c3_four_security_cases :
    is_path_allowed ["/data"] fsData "/srv/report.pdf" =
      .error ⟨ExnCls.valueError,
        "Security error: Path \x27/srv/report.pdf\x27 is outside of all allowed root directories"⟩ ∧
    pyContains "/srv/report.pdf" ".." = false ∧
    (["/data"] : List String) ≠ [] ∧
    fsData.isSymlink "/srv/report.pdf" = .ok false ∧
    is_path_allowed ["/data"] fsNullByte "/data/file.pdf" = .ok false := by
  refine ⟨rfl, ?_, ?_, rfl, rfl⟩
  · decide
  · decide

/-- C4 counterexample: a transport-level failure of the summary HTTP call
is not caught — `generate_batch_summary` propagates it and the whole
batch run fails, where the claim says the failure is converted to a
fallback string and never raises out of `tool_batch_contracts`. -/
theorem c4_counterexample :
    generate_batch_summary Provider.openai
        (.error ⟨ExnCls.osError, "connection refused"⟩) []
      = .error ⟨ExnCls.osError, "connection refused"⟩ ∧
    tool_batch_contracts cfgData envPostDown (some "/data")
      = .error ⟨ExnCls.osError, "connection refused"⟩ :=
  ⟨rfl, rfl⟩

/-- C4 (amended): `generate_batch_summary` converts a non-200 provider
response into the fixed fallback string naming the active provider, but a
raised transport error propagates unchanged. -/
theorem c4_amended_fallback_only_http (provider : Provider)
    (post : Except PyExn HttpResp) (results : List FileOutcome)
    (r : HttpResp) (e : PyExn) :
    (post = .ok r → r.status ≠ 200 →
      generate_batch_summary provider post results = .ok (summaryFallback provider)) ∧
    (post = .error e → generate_batch_summary provider post results = .error e) ∧
    pyContains (summaryFallback provider) (providerFallbackName provider) = true := by
  refine ⟨?_, ?_, ?_⟩
  · intro h1 h2
    rw [h1]
    unfold generate_batch_summary
    simp only []
    rw [if_pos h2]
  · intro h
    rw [h]
    rfl
  · cases provider <;> decide

/-- Witness for C4 (amended): a 500 response yields the Ollama fallback;
a transport error propagates. -/
theorem c4_amended_fallback_only_http_witness :
    generate_batch_summary Provider.ollama (.ok { status := 500, msgContent := .ok "" }) []
      = .ok (summaryFallback Provider.ollama) ∧
    generate_batch_summary Provider.ollama (.error ⟨ExnCls.osError, "boom"⟩) []
      = .error ⟨ExnCls.osError, "boom"⟩ :=
  ⟨(c4_amended_fallback_only_http Provider.ollama
      (.ok { status := 500, msgContent := .ok "" }) []
      { status := 500, msgContent := .ok "" } ⟨ExnCls.osError, "boom"⟩).1 rfl (by decide),
   (c4_amended_fallback_only_http Provider.ollama
      (.error ⟨ExnCls.osError, "boom"⟩) []
      { status := 500, msgContent := .ok "" } ⟨ExnCls.osError, "boom"⟩).2.1 rfl⟩

/-- C7 counterexample: the direct httpx call of
`ContractProcessor._parse_with_llm` to ollama carries the hardcoded
timeout 600.0, which differs from the default process-wide
`timeout_llm = 300.0` and takes no per-call parameter. -/
theorem c7_counterexample :
    parse_with_llm_timeout Provider.ollama = 600 ∧
    batch_summary_timeout Provider.openai = 60 ∧
    parse_with_llm_timeout Provider.ollama ≠
      ({ allowedRootsList := ["/data"], hostAllowedRoots := ["/data"] } : Cfg).timeoutLlm := by
  refine ⟨rfl, rfl, ?_⟩
  decide

/-- C7 (amended): the `LLMStrategy` gateway calls carry a per-call
timeout defaulting to `timeout_llm`, while the direct httpx calls in
`ContractProcessor._parse_with_llm` and `generate_batch_summary` use
fixed hardcoded timeouts (600 s for ollama, 60 s for anthropic and
openai) independent of configuration. -/
theorem c7_amended_timeouts :
    (∀ t d : ℚ, strategy_request_timeout (some t) d = t) ∧
    (∀ d : ℚ, strategy_request_timeout none d = d) ∧
    parse_with_llm_timeout Provider.ollama = 600 ∧
    parse_with_llm_timeout Provider.anthropic = 60 ∧
    parse_with_llm_timeout Provider.openai = 60 ∧
    batch_summary_timeout Provider.ollama = 600 ∧
    batch_summary_timeout Provider.anthropic = 60 ∧
    batch_summary_timeout Provider.openai = 60 :=
  ⟨fun _ _ => rfl, fun _ => rfl, rfl, rfl, rfl, rfl, rfl, rfl⟩

/-- C8 counterexample: `_normalize_date` is not idempotent on the
whitespace-only string `" "` — one application yields `""` (stripped),
but a second application maps `""` to `None`. -/
theorem c8_counterexample :
    normalize_date (normalize_date (some " ")) ≠ normalize_date (some " ") ∧
    normalize_date (some " ") = some "" ∧
    normalize_date (some "") = none := by
  refine ⟨?_, rfl, rfl⟩
  decide

/-- C8 (amended): `_normalize_date` is idempotent on every input except a
nonempty all-whitespace string, and maps `"31-01-2024"` to `"2024-01-31"`
while leaving the already-ISO `"2024-01-31"` unchanged. -/
theorem c8_amended_idempotent (x : Option String)
    (h : normDateOkInput x = true) :
    normalize_date (normalize_date x) = normalize_date x ∧
    normalize_date (some "31-01-2024") = some "2024-01-31" ∧
    normalize_date (some "2024-01-31") = some "2024-01-31" :=
  ⟨normalize_date_idem_aux x h, by decide, by decide⟩

/-- Witness for C8 (amended) at the concrete input `"31-01-2024"`. -/
theorem c8_amended_idempotent_witness :
    normDateOkInput (some "31-01-2024") = true ∧
    normalize_date (normalize_date (some "31-01-2024"))
      = normalize_date (some "31-01-2024") :=
  ⟨by decide, (c8_amended_idempotent (some "31-01-2024") (by decide)).1⟩

/-- C9 counterexample: translation is a plain string-prefix replace over
the pairs in order, so a configured pair can be shadowed — with internal
roots `["/a", "/ab"]` mapped to `["/ha", "/hb"]`, the path
`/ab/sub/f.pdf` under the configured pair `("/ab", "/hb")` translates to
`/hab/sub/f.pdf` (the `/a` pair fires first) and not to `/hb/sub/f.pdf`
as the claim requires for every configured pair. -/
theorem c9_counterexample :
    cfgShadow.allowedRootsList.zip cfgShadow.hostAllowedRoots
      = [("/a", "/ha"), ("/ab", "/hb")] ∧
    to_host_path cfgShadow id "/ab/sub/f.pdf" = "/hab/sub/f.pdf" ∧
    to_host_path cfgShadow id "/ab/sub/f.pdf" ≠ "/hb/sub/f.pdf" := by
  refine ⟨rfl, rfl, ?_⟩
  decide

/-- C9 (amended): the round trip holds for a configured pair `(i, e)`
provided the path is canonical (for `to_host_path`, which resolves
first), neither folder prefix matches, and no earlier pair's root is a
string prefix of the path; a path matching no configured prefix passes
through `to_internal_path` unchanged and through `to_host_path` up to
resolution. -/
theorem c9_amended_translation :
    (∀ (cfg : Cfg) (resolve : String → String) (pre post : List (String × String))
        (i e rest : String),
      cfg.allowedRootsList.zip cfg.hostAllowedRoots = pre ++ (i, e) :: post →
      resolve (i ++ rest) = i ++ rest →
      matchFolder (i ++ rest) cfg.folderSuccessPath = false →
      matchFolder (i ++ rest) cfg.folderErroresPath = false →
      (∀ pr ∈ pre, pyStartswith (i ++ rest) pr.1 = false) →
      to_host_path cfg resolve (i ++ rest) = e ++ rest) ∧
    (∀ (cfg : Cfg) (pre post : List (String × String)) (i e rest : String),
      cfg.hostAllowedRoots.zip cfg.allowedRootsList = pre ++ (e, i) :: post →
      matchFolder (e ++ rest) cfg.hostFolderSuccess = false →
      matchFolder (e ++ rest) cfg.hostFolderErrores = false →
      (∀ pr ∈ pre, pyStartswith (e ++ rest) pr.1 = false) →
      to_internal_path cfg (e ++ rest) = i ++ rest) ∧
    (∀ (cfg : Cfg) (resolve : String → String) (p : String),
      resolve p = p →
      matchFolder p cfg.folderSuccessPath = false →
      matchFolder p cfg.folderErroresPath = false →
      (∀ pr ∈ cfg.allowedRootsList.zip cfg.hostAllowedRoots,
        pyStartswith p pr.1 = false) →
      to_host_path cfg resolve p = p) ∧
    (∀ (cfg : Cfg) (p : String),
      matchFolder p cfg.hostFolderSuccess = false →
      matchFolder p cfg.hostFolderErrores = false →
      (∀ pr ∈ cfg.hostAllowedRoots.zip cfg.allowedRootsList,
        pyStartswith p pr.1 = false) →
      to_internal_path cfg p = p) := by
  refine ⟨?_, ?_, ?_, ?_⟩
  · intro cfg resolve pre post i e rest hzip hres hfs hfe hpre
    unfold to_host_path
    simp only []
    rw [hres, hfs, hfe]
    simp only [Bool.false_eq_true, if_false]
    rw [hzip, walkRoots_hit pre post i e (i ++ rest) hpre (pyStartswith_append i rest),
      replacePrefixOnce_append]
  · intro cfg pre post i e rest hzip hfs hfe hpre
    unfold to_internal_path
    simp only []
    rw [hfs, hfe]
    simp only [Bool.false_eq_true, if_false]
    rw [hzip, walkRoots_hit pre post e i (e ++ rest) hpre (pyStartswith_append e rest),
      replacePrefixOnce_append]
  · intro cfg resolve p hres hfs hfe hmiss
    unfold to_host_path
    simp only []
    rw [hres, hfs, hfe]
    simp only [Bool.false_eq_true, if_false]
    exact walkRoots_miss _ p hmiss
  · intro cfg p hfs hfe hmiss
    unfold to_internal_path
    simp only []
    rw [hfs, hfe]
    simp only [Bool.false_eq_true, if_false]
    exact walkRoots_miss _ p hmiss

/-- Witness for C9 (amended): the pair `("/data", "/host/data")` of
`cfgHost` round-trips `/data/sub/c.pdf`, and the unmatched path
`/other/x` passes through both translators unchanged. -/
theorem c9_amended_translation_witness :
    to_host_path cfgHost id ("/data" ++ "/sub/c.pdf") = "/host/data" ++ "/sub/c.pdf" ∧
    to_internal_path cfgHost ("/host/data" ++ "/sub/c.pdf") = "/data" ++ "/sub/c.pdf" ∧
    to_host_path cfgHost id "/other/x" = "/other/x" ∧
    to_internal_path cfgHost "/other/x" = "/other/x" :=
  ⟨c9_amended_translation.1 cfgHost id [] [] "/data" "/host/data" "/sub/c.pdf"
      rfl rfl rfl rfl (by simp),
   c9_amended_translation.2.1 cfgHost [] [] "/data" "/host/data" "/sub/c.pdf"
      rfl rfl rfl (by simp),
   c9_amended_translation.2.2.1 cfgHost id "/other/x" rfl rfl rfl (by decide),
   c9_amended_translation.2.2.2 cfgHost "/other/x" rfl rfl (by decide)⟩
